import Mathlib

/-!
Verification of the offline cache / sync layer of the Wampums-React
repository, shallowly embedded in Lean 4.

The embedding follows the source files:
 - `src/lib/indexedDBService.js` (the Dexie-backed cache and offline queue),
 - `public/service-worker.js` (the background sync pass and the fetch
   interception for API requests),
 - `src/api/apiService.js` (axios gateway and interceptors),
 - `src/api/attendanceService.js` and `src/api/pointsService.js`
   (domain services and their page-context sync drivers).

IndexedDB time (`Date.now()`) is modelled by an explicit `now : Nat`
parameter; asynchronous calls are modelled as pure state transitions, and a
thrown JavaScript error as an `Except.error` result.
-/

namespace Wampums

/-! ## Cache layer: `src/lib/indexedDBService.js`, table `cacheData`

Dexie schema `cacheData: 'key, data, timestamp, expiration'` — the primary
key of the table is the `key` field. -/

/-- A row of the `cacheData` table, as built by `setCachedData`. -/
structure CacheRecord where
  key : String
  data : String
  timestamp : Nat
  expiration : Nat
deriving DecidableEq

/-- Dexie `Table.put`: insert or replace the row with the same primary key. -/
def cachePut (s : List CacheRecord) (r : CacheRecord) : List CacheRecord :=
  s.filter (fun x => decide (x.key ≠ r.key)) ++ [r]

/-- Dexie `Table.get`: fetch the row whose primary key is `k`. -/
def cacheGet (s : List CacheRecord) (k : String) : Option CacheRecord :=
  s.find? (fun x => decide (x.key = k))

/-- Dexie `Table.delete` on the `cacheData` table. -/
def cacheDelete (s : List CacheRecord) (k : String) : List CacheRecord :=
  s.filter (fun x => decide (x.key ≠ k))

/-- `setCachedData(key, data, expirationTime)` from indexedDBService.js
lines 14-30: stores `{key, data, timestamp: Date.now(), expiration:
Date.now() + expirationTime}`; both `Date.now()` reads are modelled as the
same instant `now`. -/
def setCachedData (s : List CacheRecord) (key data : String)
    (expirationTime now : Nat) : List CacheRecord :=
  cachePut s ⟨key, data, now, now + expirationTime⟩

/-- `getCachedData(key)` from indexedDBService.js lines 33-54: returns the
stored data when `record.expiration > Date.now()`; an expired record is
deleted from the table and `null` is returned. The result pairs the
returned value with the table contents after the call. -/
def getCachedData (s : List CacheRecord) (key : String) (now : Nat) :
    Option String × List CacheRecord :=
  match cacheGet s key with
  | some record =>
      if record.expiration > now then (some record.data, s)
      else (none, cacheDelete s key)
  | none => (none, s)

/-- The call shape `getCachedData(cacheKey, true)` used by
attendanceService.js lines 44, 133, 260: the class method declares a single
parameter, so the extra `true` argument is ignored by JavaScript. -/
def getCachedDataCall2 (s : List CacheRecord) (key : String)
    (allowStale : Bool) (now : Nat) : Option String × List CacheRecord :=
  getCachedData s key now

lemma cacheGet_cachePut (s : List CacheRecord) (r : CacheRecord) :
    cacheGet (cachePut s r) r.key = some r := by
  induction s with
  | nil => simp [cacheGet, cachePut]
  | cons a t ih =>
      by_cases h : a.key = r.key
      · simpa [cachePut, cacheGet, List.filter_cons, h] using ih
      · simpa [cachePut, cacheGet, List.filter_cons, h] using ih

/-- Claim C5: after `setCachedData(k, v, ttl)` at time `now`, the table
holds a record with `timestamp = now` and `expiration = now + ttl`; a
`getCachedData(k)` read strictly before the expiration returns `v`, and a
read at or after the expiration returns `null`. -/
theorem setCachedData_get_spec (s : List CacheRecord) (k v : String)
    (ttl now rnow : Nat) (h : 0 < ttl) :
    cacheGet (setCachedData s k v ttl now) k = some ⟨k, v, now, now + ttl⟩ ∧
    (rnow < now + ttl →
      (getCachedData (setCachedData s k v ttl now) k rnow).1 = some v) ∧
    (now + ttl ≤ rnow →
      (getCachedData (setCachedData s k v ttl now) k rnow).1 = none) := by
  have hget : cacheGet (setCachedData s k v ttl now) k =
      some ⟨k, v, now, now + ttl⟩ :=
    cacheGet_cachePut s ⟨k, v, now, now + ttl⟩
  refine ⟨hget, ?_, ?_⟩
  · intro hlt
    simp [getCachedData, hget, hlt]
  · intro hle
    have hnot : ¬ (now + ttl > rnow) := by omega
    simp [getCachedData, hget, hnot]

/-- Claim C5, witness: a concrete write at time 100 with ttl 10 is readable
at time 105 and absent at time 110. -/
theorem setCachedData_get_spec_witness :
    cacheGet (setCachedData [] "k1" "v1" 10 100) "k1" =
      some ⟨"k1", "v1", 100, 110⟩ ∧
    (getCachedData (setCachedData [] "k1" "v1" 10 100) "k1" 105).1 =
      some "v1" ∧
    (getCachedData (setCachedData [] "k1" "v1" 10 100) "k1" 110).1 = none := by
  have h1 := setCachedData_get_spec [] "k1" "v1" 10 100 105 (by decide)
  have h2 := setCachedData_get_spec [] "k1" "v1" 10 100 110 (by decide)
  exact ⟨h1.1, h1.2.1 (by decide), h2.2.2 (by decide)⟩

/-- The cache state for the C4 evaluation: a single attendance entry whose
expiration (200) has passed at read time 200. -/
def c4Store : List CacheRecord :=
  [⟨"attendance_2024-05-01", "cachedAttendance", 100, 200⟩]

/-- Claim C4: evaluating the code at the failing input. At a time at or
past the expiration, the stale-tolerant call shape
`getCachedData(key, true)` returns `null` (the extra argument is ignored)
and the expired entry is deleted from the store; the plain read deletes it
as well. The claim said the allow-stale read returns the stored value and
that a normal read leaves the entry in place. -/
theorem allow_stale_read_deletes :
    getCachedDataCall2 c4Store "attendance_2024-05-01" true 200 =
      (none, []) ∧
    getCachedData c4Store "attendance_2024-05-01" 200 = (none, []) := by
  constructor <;> rfl

/-! ## Offline queue: `src/lib/indexedDBService.js`, table `offlineData`

Dexie schema `offlineData: '++id, key, type, timestamp, expiration'` — the
primary key of the table is the auto-incremented numeric `id`; `key`,
`type`, `timestamp`, `expiration` are secondary indexes. -/

/-- A row of the `offlineData` table, as built by `saveOfflineData`:
`{key, type, action, data, timestamp, retryCount}` plus the Dexie-assigned
primary key `id`. The payload `data` is opaque at this layer and modelled
as a string. -/
structure OfflineRecord where
  id : Nat
  key : String
  type : String
  action : String
  data : String
  timestamp : Nat
  retryCount : Nat
deriving DecidableEq

/-- The `offlineData` object store: rows kept in ascending primary-key
(insertion) order, plus the next auto-increment value. -/
structure OfflineStore where
  records : List OfflineRecord
  nextId : Nat
deriving DecidableEq

def emptyOfflineStore : OfflineStore := ⟨[], 1⟩

/-- `saveOfflineData(action, data)` from indexedDBService.js lines 57-75:
adds `{key: action_Date.now(), type: "offline", action, data, timestamp,
retryCount: 0}`; Dexie assigns the auto-increment primary key. -/
def saveOfflineData (st : OfflineStore) (action data : String) (now : Nat) :
    OfflineStore :=
  { records := st.records ++
      [⟨st.nextId, action ++ "_" ++ toString now, "offline", action, data,
        now, 0⟩],
    nextId := st.nextId + 1 }

/-- The call shape `saveOfflineData(action, data, priority)` used by
attendanceService.js lines 86-91 and 216 and pointsService.js: the class
method declares only `(action, data)`, so the priority argument is ignored
by JavaScript and nothing of it is stored. -/
def saveOfflineDataCall3 (st : OfflineStore) (action data : String)
    (priority : Nat) (now : Nat) : OfflineStore :=
  saveOfflineData st action data now

/-- `getOfflineData()` from indexedDBService.js lines 78-88:
`where('type').equals('offline').toArray()`. Dexie walks the `type` index,
which orders entries by `(type, primary key)`; all matches share the one
type value, so the result is in primary-key (insertion) order, which
`records` maintains. -/
def getOfflineData (st : OfflineStore) : List OfflineRecord :=
  st.records.filter (fun r => decide (r.type = "offline"))

/-! ## Service-worker sync pass: `public/service-worker.js`

`deleteOfflineRecord(key)` and `updateRetryCount(key, ...)` address the raw
IndexedDB object store with `store.delete(key)` / `store.get(key)`, which
operate on the store's primary key. The primary key of `offlineData` is
the numeric `id`, while the callers pass the record's string `key` field;
an IndexedDB key of a different type matches no row. -/

/-- An IndexedDB key value: numeric or string. -/
inductive IdbKey where
  | num (n : Nat)
  | str (s : String)
deriving DecidableEq

/-- Raw IndexedDB `store.delete(k)`: removes the rows whose primary key
(the numeric `id`) equals `k`. -/
def idbStoreDelete (st : OfflineStore) (k : IdbKey) : OfflineStore :=
  { st with records :=
      st.records.filter (fun r => decide (IdbKey.num r.id ≠ k)) }

/-- Raw IndexedDB `store.get(k)`: the row whose primary key equals `k`. -/
def idbStoreGet (st : OfflineStore) (k : IdbKey) : Option OfflineRecord :=
  st.records.find? (fun r => decide (IdbKey.num r.id = k))

/-- Raw IndexedDB `store.put(r)`: insert or replace by primary key. -/
def idbStorePut (st : OfflineStore) (r : OfflineRecord) : OfflineStore :=
  { st with records :=
      if st.records.any (fun x => decide (x.id = r.id)) then
        st.records.map (fun x => if x.id = r.id then r else x)
      else st.records ++ [r] }

/-- `deleteOfflineRecord(key)` from service-worker.js lines 370-380,
called with the record's string `key` field. -/
def swDeleteOfflineRecord (st : OfflineStore) (key : String) : OfflineStore :=
  idbStoreDelete st (IdbKey.str key)

/-- `updateRetryCount(key, retryCount)` from service-worker.js lines
383-406: fetches the row by `store.get(key)`, updates its `retryCount` and
puts it back; when no row matches it resolves without touching the store. -/
def swUpdateRetryCount (st : OfflineStore) (key : String) (retryCount : Nat) :
    OfflineStore :=
  match idbStoreGet st (IdbKey.str key) with
  | some record => idbStorePut st { record with retryCount := retryCount }
  | none => st

/-- Outcome of replaying one record against the server (the `fetch` inside
`syncParticipant` / `syncAttendance` / `syncGuardian`): success, or a
thrown error. `offline` records whether the failure was a dropped
connection; the service-worker code never inspects it. -/
inductive ReplayOutcome where
  | ok
  | error (offline : Bool)
deriving DecidableEq

/-- The `switch (action)` of `processOfflineRecord` (service-worker.js
lines 266-283) dispatches a replay handler for exactly these actions;
any other action only logs a warning. -/
def knownAction (a : String) : Bool :=
  decide (a = "saveParticipant") || decide (a = "updateAttendance") ||
    decide (a = "saveGuardian")

/-- `processOfflineRecord(record)` from service-worker.js lines 261-298,
with the network outcome supplied by the `replay` oracle. Returns the
store after the call together with the keys of the records whose replay
handler was dispatched. On success (or unknown action) the record's key is
passed to `deleteOfflineRecord`; on a thrown error the catch block updates
the retry count while `record.retryCount < 3` and deletes otherwise. -/
def processOfflineRecord (replay : OfflineRecord → ReplayOutcome)
    (st : OfflineStore) (record : OfflineRecord) :
    OfflineStore × List String :=
  let outcome := if knownAction record.action then replay record
                 else ReplayOutcome.ok
  let dispatched := if knownAction record.action then [record.key] else []
  match outcome with
  | ReplayOutcome.ok => (swDeleteOfflineRecord st record.key, dispatched)
  | ReplayOutcome.error _ =>
      if record.retryCount < 3 then
        (swUpdateRetryCount st record.key (record.retryCount + 1), dispatched)
      else
        (swDeleteOfflineRecord st record.key, dispatched)

/-- The `for (const record of offlineData)` loop of `syncOfflineData`
(service-worker.js lines 227-229), run over the snapshot obtained at the
start of the pass: every record is processed in order; `processOfflineRecord`
swallows its own errors, so no failure stops the loop. -/
def syncOfflineDataPass (replay : OfflineRecord → ReplayOutcome)
    (st : OfflineStore) (snapshot : List OfflineRecord) :
    OfflineStore × List String :=
  match snapshot with
  | [] => (st, [])
  | r :: rest =>
      let step := processOfflineRecord replay st r
      let next := syncOfflineDataPass replay step.1 rest
      (next.1, step.2 ++ next.2)

lemma swDeleteOfflineRecord_id (st : OfflineStore) (key : String) :
    swDeleteOfflineRecord st key = st := by
  cases st with
  | mk records nextId =>
      simp only [swDeleteOfflineRecord, idbStoreDelete]
      congr 1
      apply List.filter_eq_self.mpr
      intro r _
      simp

lemma swUpdateRetryCount_id (st : OfflineStore) (key : String) (rc : Nat) :
    swUpdateRetryCount st key rc = st := by
  have hfind : idbStoreGet st (IdbKey.str key) = none := by
    apply List.find?_eq_none.mpr
    intro r _
    simp
  simp [swUpdateRetryCount, hfind]

lemma processOfflineRecord_fst (replay : OfflineRecord → ReplayOutcome)
    (st : OfflineStore) (r : OfflineRecord) :
    (processOfflineRecord replay st r).1 = st := by
  unfold processOfflineRecord
  cases h : (if knownAction r.action then replay r else ReplayOutcome.ok) with
  | ok => simp [h, swDeleteOfflineRecord_id]
  | error off =>
      simp [h, swDeleteOfflineRecord_id, swUpdateRetryCount_id]

lemma syncOfflineDataPass_fst (replay : OfflineRecord → ReplayOutcome)
    (st : OfflineStore) (snapshot : List OfflineRecord) :
    (syncOfflineDataPass replay st snapshot).1 = st := by
  induction snapshot generalizing st with
  | nil => rfl
  | cons r rest ih =>
      simp [syncOfflineDataPass, processOfflineRecord_fst, ih]

/-- Dispatch log of a pass: the key of every record whose action has a
replay handler, in snapshot order. -/
def recordKey (r : OfflineRecord) : String := r.key

lemma processOfflineRecord_snd_known (replay : OfflineRecord → ReplayOutcome)
    (st : OfflineStore) (r : OfflineRecord)
    (h : knownAction r.action = true) :
    (processOfflineRecord replay st r).2 = [r.key] := by
  unfold processOfflineRecord
  cases replay r with
  | ok => simp [h]
  | error off =>
      by_cases hr : r.retryCount < 3 <;> simp [h, hr]

/-- Claim C1, amended: the pass does not halt. For every snapshot whose
actions all have replay handlers, every record in the snapshot is
dispatched in order, whatever the replay outcomes are; and the store is
left unchanged by the pass — the completion delete and the retry-count
update address the object store by its numeric primary key using the
record's string `key` field, so they match no row. -/
theorem syncOfflineDataPass_continues
    (replay : OfflineRecord → ReplayOutcome) (st : OfflineStore)
    (snapshot : List OfflineRecord)
    (h : snapshot.all (fun r => knownAction r.action) = true) :
    (syncOfflineDataPass replay st snapshot).1 = st ∧
    (syncOfflineDataPass replay st snapshot).2 = snapshot.map recordKey := by
  refine ⟨syncOfflineDataPass_fst replay st snapshot, ?_⟩
  induction snapshot generalizing st with
  | nil => rfl
  | cons r rest ih =>
      rw [List.all_cons, Bool.and_eq_true] at h
      simp only [syncOfflineDataPass, List.map_cons]
      rw [processOfflineRecord_snd_known replay st r h.1, ih _ h.2]
      simp [recordKey]

/-- The three queued mutations of the C1 scenario, ids 1, 2, 3 in creation
order, each with an action the service worker dispatches. -/
def recM1 : OfflineRecord :=
  ⟨1, "updateAttendance_100", "offline", "updateAttendance", "payloadA", 100, 0⟩

def recM2 : OfflineRecord :=
  ⟨2, "saveParticipant_200", "offline", "saveParticipant", "payloadB", 200, 0⟩

def recM3 : OfflineRecord :=
  ⟨3, "saveGuardian_300", "offline", "saveGuardian", "payloadC", 300, 0⟩

def storeC1 : OfflineStore := ⟨[recM1, recM2, recM3], 4⟩

/-- Replay outcomes of the C1 scenario: M1 succeeds, M2 fails because the
device is offline, M3 would succeed. -/
def replayC1 (r : OfflineRecord) : ReplayOutcome :=
  if r.id = 1 then ReplayOutcome.ok
  else if r.id = 2 then ReplayOutcome.error true
  else ReplayOutcome.ok

/-- Claim C1, counterexample: in the pass over `[M1, M2, M3]` where M1
succeeds and M2 fails offline, M3's replay handler IS dispatched (its key
is in the dispatch log), and M1's record is NOT removed — the final store
still equals the initial one. The claim asserted the pass stops after M2,
never dispatches M3, and removes M1's record. -/
theorem syncOfflineDataPass_halt_cex :
    "saveGuardian_300" ∈
      (syncOfflineDataPass replayC1 storeC1 [recM1, recM2, recM3]).2 ∧
    (syncOfflineDataPass replayC1 storeC1 [recM1, recM2, recM3]).1 =
      storeC1 := by
  constructor <;> decide

/-- Claim C1, witness for the amended statement: the concrete scenario
dispatches all three records in order and leaves the store unchanged. -/
theorem syncOfflineDataPass_continues_witness :
    (syncOfflineDataPass replayC1 storeC1 [recM1, recM2, recM3]).1 =
      storeC1 ∧
    (syncOfflineDataPass replayC1 storeC1 [recM1, recM2, recM3]).2 =
      ["updateAttendance_100", "saveParticipant_200", "saveGuardian_300"] := by
  have h := syncOfflineDataPass_continues replayC1 storeC1
    [recM1, recM2, recM3] (by decide)
  exact ⟨h.1, h.2.trans (by decide)⟩

/-! ## C2: drain order of the queue -/

/-- Three mutations enqueued in creation order A, B, C with priorities
2, 1, 1 through the three-argument call shape used by the domain
services. -/
def storeC2 : OfflineStore :=
  saveOfflineDataCall3
    (saveOfflineDataCall3
      (saveOfflineDataCall3 emptyOfflineStore "A" "dataA" 2 100)
      "B" "dataB" 1 200)
    "C" "dataC" 1 300

def recordAction (r : OfflineRecord) : String := r.action

/-- The actions a drain pass replays, in order: the snapshot it iterates
over is `getOfflineData()`. -/
def drainOrderC2 : List String := (getOfflineData storeC2).map recordAction

/-- Claim C2, counterexample: for mutations enqueued with priorities
[2, 1, 1] in creation order A, B, C, the drain pass replays them in
creation order A, B, C — not in the claimed priority order B, C, A. -/
theorem drain_priority_order_cex :
    drainOrderC2 = ["A", "B", "C"] ∧ drainOrderC2 ≠ ["B", "C", "A"] := by
  constructor <;> decide

/-- Claim C2, amended: the priority argument passed at the call sites is
dropped by `saveOfflineData` (the record carries no priority field), each
enqueue appends the new record after the existing offline records, and the
drain order for the [2, 1, 1] example is the creation order A, B, C. -/
theorem drain_creation_order :
    (∀ (st : OfflineStore) (a d : String) (p now : Nat),
      saveOfflineDataCall3 st a d p now = saveOfflineData st a d now) ∧
    (∀ (st : OfflineStore) (a d : String) (now : Nat),
      getOfflineData (saveOfflineData st a d now) =
        getOfflineData st ++
          [⟨st.nextId, a ++ "_" ++ toString now, "offline", a, d, now, 0⟩]) ∧
    drainOrderC2 = ["A", "B", "C"] := by
  refine ⟨fun st a d p now => rfl, fun st a d now => ?_, by decide⟩
  simp [getOfflineData, saveOfflineData, List.filter_append]

/-! ## C3: the retry ceiling -/

/-- The single queued record of the C3 scenario. -/
def recC3 : OfflineRecord :=
  ⟨1, "updateAttendance_100", "offline", "updateAttendance", "payload", 100, 0⟩

def storeC3 : OfflineStore := ⟨[recC3], 2⟩

/-- A replay oracle under which every dispatch fails with a client error. -/
def replayFail (r : OfflineRecord) : ReplayOutcome := ReplayOutcome.error false

/-- One full failing sync pass over the currently listed offline data. -/
def runFailingPass (st : OfflineStore) : OfflineStore :=
  (syncOfflineDataPass replayFail st (getOfflineData st)).1

/-- Claim C3: evaluating the code at the failing input. A record whose
replay fails on every pass is never removed and its stored retryCount is
never incremented: after any number of consecutive failing passes the
store is unchanged and the record — still with retryCount 0 — appears in
the next listing. The catch block calls `updateRetryCount(record.key, ...)`
and `deleteOfflineRecord(record.key)`, but both address the store's
numeric primary key with the record's string `key`, so neither has any
effect. -/
theorem retry_ceiling_never_removes (n : Nat) :
    runFailingPass^[n] storeC3 = storeC3 ∧
    getOfflineData (runFailingPass^[n] storeC3) = [recC3] ∧
    recC3.retryCount = 0 := by
  have hfix : runFailingPass storeC3 = storeC3 :=
    syncOfflineDataPass_fst replayFail storeC3 (getOfflineData storeC3)
  have hiter : runFailingPass^[n] storeC3 = storeC3 :=
    Function.iterate_fixed hfix n
  exact ⟨hiter, by rw [hiter]; decide, rfl⟩

/-! ## The IndexedDBService surface

The methods the `IndexedDBService` class body defines
(indexedDBService.js lines 4-125). A JavaScript call
`indexedDBService.m(...)` for a name outside this list reads the property
as `undefined` and throws a TypeError at the call. -/

def indexedDBServiceMethods : List String :=
  ["setCachedData", "getCachedData", "saveOfflineData", "getOfflineData",
   "clearOfflineData", "deleteOfflineRecord", "updateRetryCount"]

/-- A parsed API response body / service result as the domain services
build and return it: `{success, offline, message}` (the `offline` flag is
false on ordinary server responses and true on the optimistic queued
result). -/
structure SvcResult where
  success : Bool
  offline : Bool
  message : String
deriving DecidableEq

/-- A thrown JavaScript error as the domain services see it: its
constructor name, its `isOffline` tag (`false` models the property being
absent), and whether the underlying failure was a fetch-level network
failure rather than an HTTP error response. -/
structure JsError where
  name : String
  isOffline : Bool
  netFailure : Bool
deriving DecidableEq

/-- The catch block of `fetchFromApi` (apiService.js lines 127-132): when
`navigator.onLine` is false the error is tagged `isOffline = true`; in
every other case the error is rethrown untouched — the kind of failure is
never inspected. -/
def fetchFromApiCatch (e : JsError) (onLine : Bool) : JsError :=
  if !onLine then { e with isOffline := true } else e

/-- `fetchFromApi` as its callers observe it: either the parsed response
data, or the (possibly tagged) thrown error. The raw outcome of the axios
request is supplied as a parameter. -/
def fetchFromApi (raw : Except JsError SvcResult) (onLine : Bool) :
    Except JsError SvcResult :=
  match raw with
  | Except.ok d => Except.ok d
  | Except.error e => Except.error (fetchFromApiCatch e onLine)

/-- `updateAttendance` (attendanceService.js lines 57-102), with the
outcome of the inner `fetchFromApi` supplied as a parameter. On a
successful response the function calls
`indexedDBService.clearCachedData(cacheKey)`; the class defines no such
method, so the call throws a TypeError, the catch block sees an error
without the `isOffline` tag and rethrows. On an `isOffline` error the
mutation is queued via `saveOfflineData('updateAttendance', ..., 1)` and
an optimistic success is returned; any other error is rethrown. -/
def updateAttendance (outcome : Except JsError SvcResult)
    (q : OfflineStore) (now : Nat) (payload : String) :
    Except JsError SvcResult × OfflineStore :=
  match outcome with
  | Except.ok resp =>
      if resp.success then
        if h : "clearCachedData" ∈ indexedDBServiceMethods then
          absurd h (by decide)
        else (Except.error ⟨"TypeError", false, false⟩, q)
      else (Except.error ⟨"Error", false, false⟩, q)
  | Except.error e =>
      if e.isOffline then
        (Except.ok ⟨true, true, "Attendance changes will be saved when online"⟩,
         saveOfflineDataCall3 q "updateAttendance" payload 1 now)
      else (Except.error e, q)

/-- `saveGuest` (attendanceService.js lines 196-226): same shape as
`updateAttendance`, with queue action `saveGuest` and priority argument 2. -/
def saveGuest (outcome : Except JsError SvcResult)
    (q : OfflineStore) (now : Nat) (payload : String) :
    Except JsError SvcResult × OfflineStore :=
  match outcome with
  | Except.ok resp =>
      if resp.success then
        if h : "clearCachedData" ∈ indexedDBServiceMethods then
          absurd h (by decide)
        else (Except.error ⟨"TypeError", false, false⟩, q)
      else (Except.error ⟨"Error", false, false⟩, q)
  | Except.error e =>
      if e.isOffline then
        (Except.ok ⟨true, true, "Guest will be saved when online"⟩,
         saveOfflineDataCall3 q "saveGuest" payload 2 now)
      else (Except.error e, q)

/-- Result record of the page-context sync drivers: the `success` flag of
the returned object, and the actions actually replayed. -/
structure SyncDriverResult where
  success : Bool
  replayed : List String
deriving DecidableEq

/-- `syncOfflineAttendanceData` (attendanceService.js lines 390-440): the
first statement of the try block calls
`indexedDBService.getPendingOfflineData()`; no such method exists, so the
call throws, the outer catch returns `{success: false, error}` and the
queue is never touched. -/
def syncOfflineAttendanceData (q : OfflineStore) :
    SyncDriverResult × OfflineStore :=
  if h : "getPendingOfflineData" ∈ indexedDBServiceMethods then
    absurd h (by decide)
  else (⟨false, []⟩, q)

/-- `syncOfflinePointsData` (pointsService.js lines 536-594): identical
first step and catch structure. -/
def syncOfflinePointsData (q : OfflineStore) :
    SyncDriverResult × OfflineStore :=
  if h : "getPendingOfflineData" ∈ indexedDBServiceMethods then
    absurd h (by decide)
  else (⟨false, []⟩, q)

/-- Claim C6: for every queue state, both page-context sync drivers replay
nothing and return `success: false`, because their first step calls
`getPendingOfflineData` (and the loop would call
`updateOfflineDataStatus`), methods the IndexedDBService class does not
define; the thrown TypeError reaches the surrounding catch and the queue
is left unchanged. -/
theorem sync_drivers_always_fail (q : OfflineStore) :
    syncOfflineAttendanceData q = (⟨false, []⟩, q) ∧
    syncOfflinePointsData q = (⟨false, []⟩, q) ∧
    "getPendingOfflineData" ∉ indexedDBServiceMethods ∧
    "updateOfflineDataStatus" ∉ indexedDBServiceMethods := by
  exact ⟨rfl, rfl, by decide, by decide⟩

/-- Claim C7: when the network request succeeds with `response.success`
true, `updateAttendance` and `saveGuest` throw instead of returning the
response: the follow-up `indexedDBService.clearCachedData` call raises a
TypeError (the class defines no such method), which is rethrown because it
carries no `isOffline` tag; the queue is not touched. -/
theorem updateAttendance_throws_on_success (resp : SvcResult)
    (q : OfflineStore) (now : Nat) (payload : String)
    (h : resp.success = true) :
    updateAttendance (Except.ok resp) q now payload =
      (Except.error ⟨"TypeError", false, false⟩, q) ∧
    saveGuest (Except.ok resp) q now payload =
      (Except.error ⟨"TypeError", false, false⟩, q) ∧
    "clearCachedData" ∉ indexedDBServiceMethods := by
  cases resp with
  | mk success offline message =>
      cases h
      exact ⟨rfl, rfl, by decide⟩

/-- Claim C7, witness: a concrete successful server response makes both
functions surface a TypeError. -/
theorem updateAttendance_throws_on_success_witness :
    updateAttendance (Except.ok ⟨true, false, "ok"⟩) emptyOfflineStore 5 "p" =
      (Except.error ⟨"TypeError", false, false⟩, emptyOfflineStore) ∧
    saveGuest (Except.ok ⟨true, false, "ok"⟩) emptyOfflineStore 5 "p" =
      (Except.error ⟨"TypeError", false, false⟩, emptyOfflineStore) ∧
    "clearCachedData" ∉ indexedDBServiceMethods :=
  updateAttendance_throws_on_success ⟨true, false, "ok"⟩ emptyOfflineStore
    5 "p" rfl

/-- Claim C8, counterexample: a request that fails with a fetch-level
network failure while `navigator.onLine` still reports true surfaces with
`isOffline = false` — a generic error — although the claim counts
fetch-level network failure as offline detection and asserts the tag is
set. -/
theorem offline_tag_netfail_cex :
    (⟨"AxiosError", false, true⟩ : JsError).netFailure = true ∧
    (fetchFromApiCatch ⟨"AxiosError", false, true⟩ true).isOffline = false := by
  constructor <;> rfl

/-- Claim C8, amended: the gateway tags a failure `isOffline = true`
exactly when `navigator.onLine` is false at the time of the failure (the
kind of failure is never inspected), and `updateAttendance` enqueues the
mutation exactly when the surfaced error carries the tag, returning the
optimistic queued result; any untagged error is rethrown with the queue
unchanged. -/
theorem offline_tag_onLine_only (e : JsError) (onLine : Bool)
    (q : OfflineStore) (now : Nat) (payload : String) :
    (fetchFromApiCatch e onLine).isOffline = (!onLine || e.isOffline) ∧
    updateAttendance (Except.error e) q now payload =
      (if e.isOffline then
        (Except.ok ⟨true, true, "Attendance changes will be saved when online"⟩,
         saveOfflineDataCall3 q "updateAttendance" payload 1 now)
       else (Except.error e, q)) := by
  constructor
  · cases onLine <;> simp [fetchFromApiCatch]
  · rfl

/-! ## C9: the 401 response interceptor -/

/-- The browser state the interceptor touches: the `localStorage`
key-value pairs and `window.location.href`. -/
structure BrowserState where
  localStorage : List (String × String)
  location : String
deriving DecidableEq

/-- `localStorage.removeItem(k)`. -/
def localStorageRemoveItem (ls : List (String × String)) (k : String) :
    List (String × String) :=
  ls.filter (fun p => decide (p.1 ≠ k))

def notJwtKey (p : String × String) : Bool := decide (p.1 ≠ "jwtToken")

/-- The error branch of the axios response interceptor (apiService.js
lines 48-61): when the error carries a response with status 401, the
stored JWT token is removed and the page is navigated to `/login`;
otherwise the state is untouched (the error is re-rejected either way). -/
def responseErrorInterceptor (hasResponse : Bool) (status : Nat)
    (st : BrowserState) : BrowserState :=
  if hasResponse && decide (status = 401) then
    { localStorage := localStorageRemoveItem st.localStorage "jwtToken",
      location := "/login" }
  else st

/-- Claim C9: every API failure carrying an HTTP 401 response makes the
interceptor — which is attached to the shared axios client, hence runs for
any call anywhere — remove the stored JWT token from localStorage and force
navigation to the login entry point. -/
theorem unauthorized_resets_session (hasResponse : Bool) (status : Nat)
    (st : BrowserState) (h1 : hasResponse = true) (h2 : status = 401) :
    (responseErrorInterceptor hasResponse status st).localStorage.all
      notJwtKey = true ∧
    (responseErrorInterceptor hasResponse status st).location = "/login" := by
  cases h1
  cases h2
  refine ⟨?_, rfl⟩
  rw [List.all_eq_true]
  intro p hp
  simp only [responseErrorInterceptor, localStorageRemoveItem] at hp
  rw [if_pos (by decide)] at hp
  exact (List.mem_filter.mp hp).2

/-- Claim C9, witness: a concrete 401 failure clears the stored token and
redirects to `/login`. -/
theorem unauthorized_resets_session_witness :
    (responseErrorInterceptor true 401
      ⟨[("jwtToken", "tok"), ("lang", "fr")], "/home"⟩).localStorage.all
      notJwtKey = true ∧
    (responseErrorInterceptor true 401
      ⟨[("jwtToken", "tok"), ("lang", "fr")], "/home"⟩).location = "/login" :=
  unauthorized_resets_session true 401
    ⟨[("jwtToken", "tok"), ("lang", "fr")], "/home"⟩ rfl rfl

/-! ## C10: `handleApiRequest` in `public/service-worker.js` -/

/-- The two cache namespaces of the service worker. -/
def CACHE_NAME : String := "scouts-app-v1"

def API_CACHE_NAME : String := "scouts-api-v1"

/-- A response body: either the opaque payload of a real network response,
or the JSON object the service worker synthesizes. -/
inductive Body where
  | rawBody (tag : Nat)
  | jsonObj (success : Bool) (offline : Bool) (message : String)
deriving DecidableEq

/-- A response as `handleApiRequest` handles it: its `ok` flag and body. -/
structure SwHttpResponse where
  ok : Bool
  body : Body
deriving DecidableEq

/-- The synthesized offline response (service-worker.js lines 122-131):
`new Response(JSON.stringify({success: false, offline: true, message}))`.
A constructed `Response` defaults to status 200, so its `ok` flag is
true; the offline marker lives in the body. -/
def offlineFallbackResponse : SwHttpResponse :=
  ⟨true, Body.jsonObj false true
    "You are offline. This data is not available in the cache."⟩

/-- The API cache namespace: entries keyed by the full request. -/
def apiCachePut (cache : List (String × SwHttpResponse)) (req : String)
    (resp : SwHttpResponse) : List (String × SwHttpResponse) :=
  cache.filter (fun p => decide (p.1 ≠ req)) ++ [(req, resp)]

/-- `caches.match(request)` over the API cache namespace. -/
def apiCacheMatch (cache : List (String × SwHttpResponse)) (req : String) :
    Option SwHttpResponse :=
  match cache.find? (fun p => decide (p.1 = req)) with
  | some p => some p.2
  | none => none

/-- `handleApiRequest(request)` (service-worker.js lines 101-133), with
the network outcome supplied as a parameter: `some response` when `fetch`
resolves, `none` when it rejects. Network first; an `ok` response is
cloned into the API cache before being returned; on network failure the
cached copy is returned if present, else the synthesized offline
response. The result pairs the returned response with the API cache after
the call. -/
def handleApiRequest (req : String) (net : Option SwHttpResponse)
    (cache : List (String × SwHttpResponse)) :
    SwHttpResponse × List (String × SwHttpResponse) :=
  match net with
  | some response =>
      if response.ok then (response, apiCachePut cache req response)
      else (response, cache)
  | none =>
      match apiCacheMatch cache req with
      | some cachedResponse => (cachedResponse, cache)
      | none => (offlineFallbackResponse, cache)

/-- Claim C10: the interception of remote-API requests is network-first —
when the network call resolves with an `ok` response, a copy is stored in
the API cache keyed by the full request and the response is returned; when
the network call fails, the cached copy for that request is returned if
one exists, and otherwise a synthesized JSON response whose body has
`success: false` and `offline: true`; the API cache namespace is separate
from the static-asset namespace. -/
theorem handleApiRequest_policy (req : String) (resp : SwHttpResponse)
    (cache : List (String × SwHttpResponse)) :
    (resp.ok = true →
      handleApiRequest req (some resp) cache =
        (resp, apiCachePut cache req resp)) ∧
    (∀ r : SwHttpResponse, apiCacheMatch cache req = some r →
      handleApiRequest req none cache = (r, cache)) ∧
    (apiCacheMatch cache req = none →
      handleApiRequest req none cache = (offlineFallbackResponse, cache)) ∧
    offlineFallbackResponse.body =
      Body.jsonObj false true
        "You are offline. This data is not available in the cache." ∧
    API_CACHE_NAME ≠ CACHE_NAME := by
  refine ⟨?_, ?_, ?_, rfl, by decide⟩
  · intro hok
    simp [handleApiRequest, hok]
  · intro r hr
    simp [handleApiRequest, hr]
  · intro hnone
    simp [handleApiRequest, hnone]

def respA : SwHttpResponse := ⟨true, Body.rawBody 7⟩

def respB : SwHttpResponse := ⟨true, Body.rawBody 3⟩

def apiCacheEx : List (String × SwHttpResponse) := [("reqB", respB)]

/-- Claim C10, witness: a concrete ok response to `reqA` is cached and
returned; with the network down, the uncached `reqA` yields the
synthesized offline body while the cached `reqB` is served from the API
cache. -/
theorem handleApiRequest_policy_witness :
    handleApiRequest "reqA" (some respA) apiCacheEx =
      (respA, apiCachePut apiCacheEx "reqA" respA) ∧
    handleApiRequest "reqA" none apiCacheEx =
      (offlineFallbackResponse, apiCacheEx) ∧
    handleApiRequest "reqB" none apiCacheEx = (respB, apiCacheEx) := by
  have h1 := handleApiRequest_policy "reqA" respA apiCacheEx
  have h2 := handleApiRequest_policy "reqB" respA apiCacheEx
  exact ⟨h1.1 rfl, h1.2.2.1 (by decide), h2.2.1 respB (by decide)⟩

end Wampums
